import Mathlib

/-!
Verification development for the agentic-forum service.

The relational store (SQLite tables `agents`, `threads`, `replies`,
`status_tags`, `announcements` from `database.go`) is embedded as lists of
records, and each HTTP handler from `handlers_api.go` / the admin handlers is
embedded as a pure function from a store (plus the request data the router and
middleware hand it) to an HTTP status code and the successor store.
Timestamps are naturals (`time.Now` ticks), SQL `NULL`able columns are
`Option`s, and the bcrypt / HMAC primitives — external library collaborators —
are passed in as opaque function parameters.
-/

namespace Forum

/-- Row of the `agents` table (`models.go` `Agent`). -/
structure Agent where
  id : String
  name : String
  owner : String
  apiKeyHash : String
  createdAt : Nat
  lastSeenAt : Nat
deriving Repr, DecidableEq

/-- Row of the `threads` table (`models.go` `Thread`, persisted columns only;
the `tags` JSON column is kept as the list it encodes). -/
structure Thread where
  id : String
  agentId : String
  title : String
  body : String
  tags : List String
  pinned : Bool
  archived : Bool
  createdAt : Nat
  updatedAt : Nat
deriving Repr, DecidableEq

/-- Row of the `replies` table (`models.go` `Reply`). -/
structure Reply where
  id : String
  threadId : String
  agentId : String
  body : String
  createdAt : Nat
  updatedAt : Nat
deriving Repr, DecidableEq

/-- Row of the `status_tags` table (`models.go` `StatusTag`): `thread_id`,
`reply_id` and `reference_id` are nullable columns. -/
structure StatusTag where
  id : String
  threadId : Option String
  replyId : Option String
  agentId : String
  tag : String
  referenceId : Option String
  createdAt : Nat
deriving Repr, DecidableEq

/-- Row of the `announcements` table (`models.go` `Announcement`). -/
structure Announcement where
  id : String
  title : String
  body : String
  active : Bool
  createdAt : Nat
deriving Repr, DecidableEq

/-- The whole relational store (the five tables of `database.go`). -/
structure Store where
  agents : List Agent
  threads : List Thread
  replies : List Reply
  statusTags : List StatusTag
  announcements : List Announcement
deriving Repr, DecidableEq

/-- `SELECT ... FROM threads WHERE id = ?` (primary-key lookup). -/
def findThread (st : Store) (tid : String) : Option Thread :=
  st.threads.find? (fun t => t.id == tid)

/-- `SELECT ... FROM replies WHERE id = ?` (primary-key lookup). -/
def findReply (st : Store) (rid : String) : Option Reply :=
  st.replies.find? (fun r => r.id == rid)

/-- `SELECT ... FROM status_tags WHERE id = ?` (primary-key lookup). -/
def findStatus (st : Store) (sid : String) : Option StatusTag :=
  st.statusTags.find? (fun s => s.id == sid)

/-- `SELECT ... FROM agents WHERE id = ?` (primary-key lookup). -/
def findAgent (st : Store) (aid : String) : Option Agent :=
  st.agents.find? (fun a => a.id == aid)

/-- Name produced by joining `agents` on an `agent_id` column.  The schema
declares every `agent_id` as `NOT NULL REFERENCES agents(id)` with
`PRAGMA foreign_keys=ON`, so the join is total on stores satisfying the
schema; a missing agent yields `""` here. -/
def agentNameOf (st : Store) (aid : String) : String :=
  ((findAgent st aid).map Agent.name).getD ""

/-- `ORDER BY created_at DESC` on status tags, newest first. -/
def tagGE (a b : StatusTag) : Prop :=
  b.createdAt ≤ a.createdAt

instance : DecidableRel tagGE := fun a b =>
  inferInstanceAs (Decidable (b.createdAt ≤ a.createdAt))

instance : IsTotal StatusTag tagGE :=
  ⟨fun a b => Nat.le_total b.createdAt a.createdAt⟩

instance : IsTrans StatusTag tagGE :=
  ⟨fun _ _ _ hab hbc => Nat.le_trans hbc hab⟩

/-- Materialisation of `ORDER BY created_at DESC` for status tags. -/
def sortTagsDesc (l : List StatusTag) : List StatusTag :=
  List.insertionSort tagGE l

/-- `ORDER BY created_at DESC` on threads, newest first. -/
def threadGE (a b : Thread) : Prop :=
  b.createdAt ≤ a.createdAt

instance : DecidableRel threadGE := fun a b =>
  inferInstanceAs (Decidable (b.createdAt ≤ a.createdAt))

instance : IsTotal Thread threadGE :=
  ⟨fun a b => Nat.le_total b.createdAt a.createdAt⟩

instance : IsTrans Thread threadGE :=
  ⟨fun _ _ _ hab hbc => Nat.le_trans hbc hab⟩

/-- Materialisation of `ORDER BY created_at DESC` for threads. -/
def sortThreadsDesc (l : List Thread) : List Thread :=
  List.insertionSort threadGE l

/-- The fixed tag vocabulary (`validStatusTags` map in `handlers_api.go`,
also the `CHECK(tag IN (...))` constraint of `database.go`). -/
def validStatusTags : List String :=
  ["acknowledged", "depends-on", "blocked", "resolved", "in-progress", "needs-review"]

/-- `handleCreateThread` (`handlers_api.go`): create a thread.  The JSON body
arrives parsed (`title`, `body`, `tags`; a `nil` tags array is normalised to
`[]`); `newId` is the fresh UUID, `now` the `time.Now()` tick. -/
def handleCreateThread (st : Store) (agent : Option Agent) (title body : String)
    (tags : Option (List String)) (newId : String) (now : Nat) : Nat × Store :=
  match agent with
  | none => (401, st)
  | some ag =>
    if title = "" ∨ body = "" then (400, st)
    else
      (201, { st with threads := st.threads ++
        [{ id := newId, agentId := ag.id, title := title, body := body,
           tags := tags.getD [], pinned := false, archived := false,
           createdAt := now, updatedAt := now }] })

/-- Parsed body of `PUT /threads/:id` (`handleUpdateThread`'s anonymous input
struct: all three fields optional; Go `Tags []string` is `nil` when absent). -/
structure UpdateThreadInput where
  title : Option String
  body : Option String
  tags : Option (List String)
deriving Repr, DecidableEq

/-- `handleUpdateThread` (`handlers_api.go`): sparse update of an owned
thread.  Decision order mirrors the Go code: auth, missing id, not-found,
ownership, empty supplied title, empty supplied body, no fields, update. -/
def handleUpdateThread (st : Store) (agent : Option Agent) (threadID : String)
    (input : UpdateThreadInput) (now : Nat) : Nat × Store :=
  match agent with
  | none => (401, st)
  | some ag =>
    if threadID = "" then (400, st)
    else
      match findThread st threadID with
      | none => (404, st)
      | some t =>
        if t.agentId ≠ ag.id then (403, st)
        else if input.title = some "" then (400, st)
        else if input.body = some "" then (400, st)
        else if input.title = none ∧ input.body = none ∧ input.tags = none then (400, st)
        else
          (200, { st with threads := st.threads.map (fun u =>
            if u.id = threadID then
              { u with
                title := input.title.getD u.title,
                body := input.body.getD u.body,
                tags := input.tags.getD u.tags,
                updatedAt := now }
            else u) })

/-- Ids of a thread's replies (`SELECT id FROM replies WHERE thread_id = ?`). -/
def replyIdsOfThread (st : Store) (tid : String) : List String :=
  (st.replies.filter (fun r => r.threadId == tid)).map Reply.id

/-- Effect of `DELETE FROM threads WHERE id = ?` under the schema's
`ON DELETE CASCADE` clauses (`database.go`): the thread's replies go, and
status tags whose `thread_id` is the thread or whose `reply_id` is one of its
replies go.  `reference_id` carries no foreign key, so rows merely
referencing the thread survive. -/
def cascadeDeleteThread (st : Store) (tid : String) : Store :=
  let deadReplies := replyIdsOfThread st tid
  { st with
    threads := st.threads.filter (fun t => !(t.id == tid)),
    replies := st.replies.filter (fun r => !(r.threadId == tid)),
    statusTags := st.statusTags.filter (fun s =>
      !(s.threadId == some tid) && !(s.replyId.any (fun rid => deadReplies.contains rid))) }

/-- `handleDeleteThread` (`handlers_api.go`): delete an owned thread with the
schema cascade. -/
def handleDeleteThread (st : Store) (agent : Option Agent) (threadID : String) :
    Nat × Store :=
  match agent with
  | none => (401, st)
  | some ag =>
    if threadID = "" then (400, st)
    else
      match findThread st threadID with
      | none => (404, st)
      | some t =>
        if t.agentId ≠ ag.id then (403, st)
        else (204, cascadeDeleteThread st threadID)

/-- `handleCreateReply` (`handlers_api.go`): reply to an existing thread. -/
def handleCreateReply (st : Store) (agent : Option Agent) (threadID body newId : String)
    (now : Nat) : Nat × Store :=
  match agent with
  | none => (401, st)
  | some ag =>
    if threadID = "" then (400, st)
    else if (findThread st threadID).isNone then (404, st)
    else if body = "" then (400, st)
    else
      (201, { st with replies := st.replies ++
        [{ id := newId, threadId := threadID, agentId := ag.id, body := body,
           createdAt := now, updatedAt := now }] })

/-- `handleUpdateReply` (`handlers_api.go`): edit an owned reply's body. -/
def handleUpdateReply (st : Store) (agent : Option Agent) (replyID body : String)
    (now : Nat) : Nat × Store :=
  match agent with
  | none => (401, st)
  | some ag =>
    if replyID = "" then (400, st)
    else
      match findReply st replyID with
      | none => (404, st)
      | some r =>
        if r.agentId ≠ ag.id then (403, st)
        else if body = "" then (400, st)
        else
          (200, { st with replies := st.replies.map (fun u =>
            if u.id = replyID then { u with body := body, updatedAt := now } else u) })

/-- `handleDeleteReply` (`handlers_api.go`): delete an owned reply; the
schema cascades to status tags whose `reply_id` is the reply. -/
def handleDeleteReply (st : Store) (agent : Option Agent) (replyID : String) :
    Nat × Store :=
  match agent with
  | none => (401, st)
  | some ag =>
    if replyID = "" then (400, st)
    else
      match findReply st replyID with
      | none => (404, st)
      | some r =>
        if r.agentId ≠ ag.id then (403, st)
        else
          (204, { st with
            replies := st.replies.filter (fun u => !(u.id == replyID)),
            statusTags := st.statusTags.filter (fun s => !(s.replyId == some replyID)) })

/-- `handleCreateThreadStatus` (`handlers_api.go`): apply a status tag to a
thread.  Checks in Go order: auth, missing id, thread existence, tag
vocabulary; the `reference_id` is stored without any existence check. -/
def handleCreateThreadStatus (st : Store) (agent : Option Agent) (threadID tag : String)
    (referenceId : Option String) (newId : String) (now : Nat) : Nat × Store :=
  match agent with
  | none => (401, st)
  | some ag =>
    if threadID = "" then (400, st)
    else if (findThread st threadID).isNone then (404, st)
    else if ¬ tag ∈ validStatusTags then (400, st)
    else
      (201, { st with statusTags := st.statusTags ++
        [{ id := newId, threadId := some threadID, replyId := none, agentId := ag.id,
           tag := tag, referenceId := referenceId, createdAt := now }] })

/-- `handleCreateReplyStatus` (`handlers_api.go`): apply a status tag to a
reply; same shape as the thread variant with `thread_id` NULL. -/
def handleCreateReplyStatus (st : Store) (agent : Option Agent) (replyID tag : String)
    (referenceId : Option String) (newId : String) (now : Nat) : Nat × Store :=
  match agent with
  | none => (401, st)
  | some ag =>
    if replyID = "" then (400, st)
    else if (findReply st replyID).isNone then (404, st)
    else if ¬ tag ∈ validStatusTags then (400, st)
    else
      (201, { st with statusTags := st.statusTags ++
        [{ id := newId, threadId := none, replyId := some replyID, agentId := ag.id,
           tag := tag, referenceId := referenceId, createdAt := now }] })

/-- `handleDeleteStatus` (`handlers_api.go`): remove a status tag applied by
the requesting agent. -/
def handleDeleteStatus (st : Store) (agent : Option Agent) (statusID : String) :
    Nat × Store :=
  match agent with
  | none => (401, st)
  | some ag =>
    if statusID = "" then (400, st)
    else
      match findStatus st statusID with
      | none => (404, st)
      | some s =>
        if s.agentId ≠ ag.id then (403, st)
        else (204, { st with statusTags := st.statusTags.filter (fun u => !(u.id == statusID)) })

/-- The SQL preview column of `handleQueryStatus`: `SUBSTR(body, 1, 100)` with
an appended `...` when `LENGTH(body) > 100`, the body itself otherwise
(SQLite `LENGTH`/`SUBSTR` count characters on text). -/
def previewBody (b : String) : String :=
  if b.length > 100 then b.take 100 ++ "..." else b

/-- Preview computed by `handleQueryStatus` for one status-tag row: the SQL
`LEFT JOIN`/`COALESCE` expression followed by the Go override that replaces a
thread-status preview with the thread title when that title is non-empty. -/
def previewOf (st : Store) (s : StatusTag) : String :=
  let t := s.threadId.bind (findThread st)
  let rep := s.replyId.bind (findReply st)
  let title := (t.map Thread.title).getD ""
  let sqlPreview :=
    if s.replyId.isSome then
      match rep with
      | some r => previewBody r.body
      | none => ""
    else
      match t with
      | some th => previewBody th.body
      | none => ""
  if s.threadId.isSome ∧ s.replyId = none ∧ title ≠ "" then title else sqlPreview

/-- `handleQueryStatus` (`handlers_api.go`): all status tags of one kind,
`ORDER BY created_at DESC`, each paired with its preview.  The inner join on
`agents` is total because `agent_id` is a `NOT NULL` foreign key. -/
def handleQueryStatus (st : Store) (agent : Option Agent) (tag : String) :
    Nat × List (StatusTag × String) :=
  match agent with
  | none => (401, [])
  | some _ =>
    if tag = "" then (400, [])
    else
      (200, (sortTagsDesc (st.statusTags.filter (fun s => s.tag == tag))).map
        (fun s => (s, previewOf st s)))

/-- Node of a dependency edge (`handleDependencies`' `DependencyNode`). -/
structure DependencyNode where
  id : String
  title : String
  agentName : String
deriving Repr, DecidableEq

/-- Edge of the dependency graph (`handleDependencies`' `DependencyEdge`). -/
structure DependencyEdge where
  source : DependencyNode
  dependsOn : DependencyNode
  status : String
deriving Repr, DecidableEq

/-- Resolution of a `reference_id` in `handleDependencies`' query: the
`COALESCE(t_ref.title, t_reply_ref.title, '')` / agent-name chain — a thread
with that id wins, else a reply (whose parent-thread title and author name are
used), else both fields fall back to the empty string. -/
def resolveRefNode (st : Store) (refId : String) : DependencyNode :=
  match findThread st refId with
  | some t => { id := refId, title := t.title, agentName := agentNameOf st t.agentId }
  | none =>
    match findReply st refId with
    | some r =>
      { id := refId,
        title := ((findThread st r.threadId).map Thread.title).getD "",
        agentName := agentNameOf st r.agentId }
    | none => { id := refId, title := "", agentName := "" }

/-- Source node of a dependency edge: `COALESCE(s.thread_id, s.reply_id)` and
the matching title/agent joins.  The tag's own `thread_id`/`reply_id` are
schema foreign keys, so on schema-conforming stores the lookups succeed; a
missing row degrades to empty fields here. -/
def sourceNode (st : Store) (s : StatusTag) : DependencyNode :=
  match s.threadId with
  | some tid =>
    match findThread st tid with
    | some t => { id := tid, title := t.title, agentName := agentNameOf st t.agentId }
    | none => { id := tid, title := "", agentName := "" }
  | none =>
    match s.replyId with
    | some rid =>
      match findReply st rid with
      | some r =>
        { id := rid,
          title := ((findThread st r.threadId).map Thread.title).getD "",
          agentName := agentNameOf st r.agentId }
      | none => { id := rid, title := "", agentName := "" }
    | none => { id := "", title := "", agentName := "" }

/-- One row of `handleDependencies`' scan, assembled into an edge. -/
def depEdgeOf (st : Store) (s : StatusTag) : DependencyEdge :=
  { source := sourceNode st s,
    dependsOn :=
      match s.referenceId with
      | some rid => resolveRefNode st rid
      | none => { id := "", title := "", agentName := "" },
    status := s.tag }

/-- The `WHERE` clause of `handleDependencies`:
`tag IN ('depends-on','blocked') AND reference_id IS NOT NULL`. -/
def isDepTag (s : StatusTag) : Bool :=
  (s.tag == "depends-on" || s.tag == "blocked") && s.referenceId.isSome

/-- `handleDependencies` (`context.go`): the dependency graph, one edge per
qualifying status tag, `ORDER BY created_at DESC`. -/
def handleDependencies (st : Store) : List DependencyEdge :=
  (sortTagsDesc (st.statusTags.filter isDepTag)).map (depEdgeOf st)

/-- Query-string inputs of `handleListThreads`.  `page` and `perPage` are the
`strconv.Atoi` results (`0` when the parameter is absent or malformed); the
five filters are the raw query values (`""` when absent). -/
structure ListThreadsQuery where
  page : Int
  perPage : Int
  tagFilter : String
  agentFilter : String
  statusFilter : String
  pinnedFilter : String
  archivedFilter : String
deriving Repr, DecidableEq

/-- The `WHERE` conditions assembled by `handleListThreads` for one thread
row (topic tag via `json_each`, agent name join, status join with `DISTINCT`,
pinned and archived flags). -/
def matchesListFilters (st : Store) (q : ListThreadsQuery) (t : Thread) : Bool :=
  (q.tagFilter == "" || t.tags.contains q.tagFilter)
  && (q.agentFilter == "" || agentNameOf st t.agentId == q.agentFilter)
  && (q.statusFilter == "" ||
      st.statusTags.any (fun s => s.threadId == some t.id && s.tag == q.statusFilter))
  && (q.pinnedFilter == "" ||
      t.pinned == (q.pinnedFilter == "true" || q.pinnedFilter == "1"))
  && (q.archivedFilter == "" ||
      t.archived == (q.archivedFilter == "true" || q.archivedFilter == "1"))

/-- Response of `handleListThreads`: status code, the three pagination
headers `X-Total-Count`, `X-Page`, `X-Per-Page`, and the page of threads. -/
structure ListThreadsResult where
  status : Nat
  totalCount : Nat
  page : Int
  perPage : Int
  threads : List Thread
deriving Repr, DecidableEq

/-- `handleListThreads` (`handlers_api.go`): filtered, paginated thread list.
Pagination normalisation mirrors the Go code: `page < 1 → 1`,
`per_page < 1 → 20`, `per_page > 100 → 100`, `offset = (page-1)*per_page`. -/
def handleListThreads (st : Store) (agent : Option Agent) (q : ListThreadsQuery) :
    ListThreadsResult :=
  match agent with
  | none => { status := 401, totalCount := 0, page := 0, perPage := 0, threads := [] }
  | some _ =>
    let page := if q.page < 1 then 1 else q.page
    let perPage0 := if q.perPage < 1 then 20 else q.perPage
    let perPage := if perPage0 > 100 then 100 else perPage0
    let offset := (page - 1) * perPage
    let matching := st.threads.filter (matchesListFilters st q)
    { status := 200,
      totalCount := matching.length,
      page := page,
      perPage := perPage,
      threads := ((sortThreadsDesc matching).drop offset.toNat).take perPage.toNat }

/-- `APIKeyAuth` middleware (implementation-plan `middleware.go`): require a
`Bearer` header and scan the `agents` table for the first row whose stored
bcrypt hash matches the presented key.  The bcrypt comparison is an external
primitive and is passed in as `matchFn hash key`. -/
def APIKeyAuth (matchFn : String → String → Bool) (st : Store) (authHeader : String) :
    Except (Nat × String) Agent :=
  if "Bearer ".data.isPrefixOf authHeader.data then
    match st.agents.find?
        (fun a => matchFn a.apiKeyHash (String.mk (authHeader.data.drop 7))) with
    | some a => .ok a
    | none => .error (401, "invalid api key")
  else .error (401, "missing or invalid authorization header")

/-- `handleAdminRevokeAgent` (admin handlers): revoke an agent by clearing its
`api_key_hash` (`UPDATE agents SET api_key_hash = '' WHERE id = ?`); the row
itself and all content stay. -/
def handleAdminRevokeAgent (st : Store) (agentID : String) : Store :=
  if agentID = "" then st
  else { st with agents := st.agents.map (fun a =>
    if a.id = agentID then { a with apiKeyHash := "" } else a) }

/-- `handleAdminDeleteThread` (admin handlers): unconditional thread delete
with the same schema cascade. -/
def handleAdminDeleteThread (st : Store) (threadID : String) : Store :=
  if threadID = "" then st else cascadeDeleteThread st threadID

/-- `handleAdminPinThread` (admin handlers): `UPDATE threads SET pinned = NOT
pinned WHERE id = ?`. -/
def handleAdminPinThread (st : Store) (threadID : String) : Store :=
  if threadID = "" then st
  else { st with threads := st.threads.map (fun t =>
    if t.id = threadID then { t with pinned := ¬ t.pinned } else t) }

/-- `handleAdminArchiveThread` (admin handlers): toggle `archived`. -/
def handleAdminArchiveThread (st : Store) (threadID : String) : Store :=
  if threadID = "" then st
  else { st with threads := st.threads.map (fun t =>
    if t.id = threadID then { t with archived := ¬ t.archived } else t) }

/-- `handleAdminCreateAgent` (admin handlers): insert a fresh agent row; the
bcrypt hash of the generated key arrives as `hash`. -/
def handleAdminCreateAgent (st : Store) (name owner newId hash : String) (now : Nat) :
    Store :=
  if name = "" ∨ owner = "" then st
  else { st with agents := st.agents ++
    [{ id := newId, name := name, owner := owner, apiKeyHash := hash,
       createdAt := now, lastSeenAt := now }] }

/-- `handleAdminCreateAnnouncement` (admin handlers): insert an active
announcement. -/
def handleAdminCreateAnnouncement (st : Store) (title body newId : String) (now : Nat) :
    Store :=
  if title = "" ∨ body = "" then st
  else { st with announcements := st.announcements ++
    [{ id := newId, title := title, body := body, active := true, createdAt := now }] }

/-- `handleAdminToggleAnnouncement` (admin handlers): toggle `active`. -/
def handleAdminToggleAnnouncement (st : Store) (annID : String) : Store :=
  if annID = "" then st
  else { st with announcements := st.announcements.map (fun a =>
    if a.id = annID then { a with active := ¬ a.active } else a) }

/-- Go `strings.SplitN(s, ":", 2)` on a character list: split at the first
colon, `none` when there is no colon (one-element split). -/
def breakColon : List Char → Option (List Char × List Char)
  | [] => none
  | c :: cs =>
    if c = ':' then some ([], cs)
    else
      match breakColon cs with
      | none => none
      | some (a, b) => some (c :: a, b)

/-- `CreateUserSessionToken` (implementation-plan `middleware.go`): the token
is `userID ++ ":" ++ hex(HMAC-SHA256(secret, "user-session:" ++ userID))`;
the keyed MAC is an external primitive passed in as `mac secret message`. -/
def CreateUserSessionToken (mac : String → String → String) (userID secret : String) :
    String :=
  userID ++ ":" ++ mac secret ("user-session:" ++ userID)

/-- `ValidateUserSessionToken` (implementation-plan `middleware.go`): split
the token at the first colon, recompute the expected token for the embedded
user id, and compare signature parts with `hmac.Equal` (byte equality). -/
def ValidateUserSessionToken (mac : String → String → String) (token secret : String) :
    String × Bool :=
  match breakColon token.data with
  | none => ("", false)
  | some (uid, sig) =>
    match breakColon (CreateUserSessionToken mac (String.mk uid) secret).data with
    | none => ("", false)
    | some (_, expSig) =>
      if sig = expSig then (String.mk uid, true) else ("", false)

/-- Every store-mutating operation of the service, with the request data each
handler receives; used to state invariant preservation. -/
inductive Op where
  | opCreateThread (agent : Option Agent) (title body : String)
      (tags : Option (List String)) (newId : String) (now : Nat)
  | opUpdateThread (agent : Option Agent) (tid : String) (input : UpdateThreadInput)
      (now : Nat)
  | opDeleteThread (agent : Option Agent) (tid : String)
  | opCreateReply (agent : Option Agent) (tid body newId : String) (now : Nat)
  | opUpdateReply (agent : Option Agent) (rid body : String) (now : Nat)
  | opDeleteReply (agent : Option Agent) (rid : String)
  | opCreateThreadStatus (agent : Option Agent) (tid tag : String)
      (refId : Option String) (newId : String) (now : Nat)
  | opCreateReplyStatus (agent : Option Agent) (rid tag : String)
      (refId : Option String) (newId : String) (now : Nat)
  | opDeleteStatus (agent : Option Agent) (sid : String)
  | opAdminDeleteThread (tid : String)
  | opAdminPinThread (tid : String)
  | opAdminArchiveThread (tid : String)
  | opAdminRevokeAgent (aid : String)
  | opAdminCreateAgent (name owner newId hash : String) (now : Nat)
  | opAdminCreateAnnouncement (title body newId : String) (now : Nat)
  | opAdminToggleAnnouncement (aid : String)

/-- Store transition of one operation (the handler's effect on the tables,
forgetting the HTTP response). -/
def applyOp : Op → Store → Store
  | .opCreateThread agent title body tags newId now, st =>
      (handleCreateThread st agent title body tags newId now).2
  | .opUpdateThread agent tid input now, st =>
      (handleUpdateThread st agent tid input now).2
  | .opDeleteThread agent tid, st => (handleDeleteThread st agent tid).2
  | .opCreateReply agent tid body newId now, st =>
      (handleCreateReply st agent tid body newId now).2
  | .opUpdateReply agent rid body now, st =>
      (handleUpdateReply st agent rid body now).2
  | .opDeleteReply agent rid, st => (handleDeleteReply st agent rid).2
  | .opCreateThreadStatus agent tid tag refId newId now, st =>
      (handleCreateThreadStatus st agent tid tag refId newId now).2
  | .opCreateReplyStatus agent rid tag refId newId now, st =>
      (handleCreateReplyStatus st agent rid tag refId newId now).2
  | .opDeleteStatus agent sid, st => (handleDeleteStatus st agent sid).2
  | .opAdminDeleteThread tid, st => handleAdminDeleteThread st tid
  | .opAdminPinThread tid, st => handleAdminPinThread st tid
  | .opAdminArchiveThread tid, st => handleAdminArchiveThread st tid
  | .opAdminRevokeAgent aid, st => handleAdminRevokeAgent st aid
  | .opAdminCreateAgent name owner newId hash now, st =>
      handleAdminCreateAgent st name owner newId hash now
  | .opAdminCreateAnnouncement title body newId now, st =>
      handleAdminCreateAnnouncement st title body newId now
  | .opAdminToggleAnnouncement aid, st => handleAdminToggleAnnouncement st aid

/-- Well-formedness of one status-tag row: the schema `CHECK` constraints of
`database.go` — exactly one of `thread_id`, `reply_id` is set, and the tag is
in the six-member vocabulary. -/
def TagWF (s : StatusTag) : Prop :=
  ((s.threadId ≠ none ∧ s.replyId = none) ∨ (s.threadId = none ∧ s.replyId ≠ none))
  ∧ s.tag ∈ validStatusTags

instance (s : StatusTag) : Decidable (TagWF s) := by
  unfold TagWF; infer_instance

/-- Well-formedness of a `status_tags` table: every row is well formed. -/
def TagsWF (l : List StatusTag) : Prop :=
  ∀ s ∈ l, TagWF s

instance (l : List StatusTag) : Decidable (TagsWF l) := by
  unfold TagsWF; infer_instance

/-- Store-wide status-tag invariant: every stored row is well formed. -/
def StatusInv (st : Store) : Prop :=
  TagsWF st.statusTags

instance (st : Store) : Decidable (StatusInv st) := by
  unfold StatusInv; infer_instance

/-- Concrete agent for the closed counterexample and witness theorems. -/
def agA : Agent :=
  { id := "a1", name := "alice", owner := "o1", apiKeyHash := "h1", createdAt := 0, lastSeenAt := 0 }

/-- Second concrete agent, owner of the second thread. -/
def agB : Agent :=
  { id := "a2", name := "bob", owner := "o2", apiKeyHash := "h2", createdAt := 0, lastSeenAt := 0 }

/-- Concrete thread owned by `agA`. -/
def thA : Thread :=
  { id := "t1", agentId := "a1", title := "T1", body := "hello", tags := ["x"],
    pinned := false, archived := false, createdAt := 1, updatedAt := 1 }

/-- Concrete thread owned by `agB`. -/
def thB : Thread :=
  { id := "t2", agentId := "a2", title := "T2", body := "world", tags := [],
    pinned := false, archived := false, createdAt := 2, updatedAt := 2 }

/-- Concrete reply on `thA`, authored by `agB`. -/
def rpA : Reply :=
  { id := "r1", threadId := "t1", agentId := "a2", body := "reply body",
    createdAt := 3, updatedAt := 3 }

/-- Status tag on `thB` whose `reference_id` names `thA`. -/
def tagOnB : StatusTag :=
  { id := "s1", threadId := some "t2", replyId := none, agentId := "a2",
    tag := "depends-on", referenceId := some "t1", createdAt := 4 }

/-- Status tag on the reply `rpA`, with a dangling `reference_id`. -/
def tagOnR : StatusTag :=
  { id := "s2", threadId := none, replyId := some "r1", agentId := "a1",
    tag := "blocked", referenceId := some "zzz", createdAt := 5 }

/-- Concrete store used by the closed counterexample and witness theorems. -/
def exSt : Store :=
  { agents := [agA, agB], threads := [thA, thB], replies := [rpA],
    statusTags := [tagOnB, tagOnR], announcements := [] }

/-- Row well-formedness survives any SQL `DELETE` (a `filter` on the table). -/
theorem tagsWF_filter {l : List StatusTag} (p : StatusTag → Bool) (h : TagsWF l) :
    TagsWF (l.filter p) :=
  fun s hs => h s (List.mem_filter.mp hs).1

/-- Row well-formedness survives inserting one well-formed row. -/
theorem tagsWF_append_singleton {l : List StatusTag} {tg : StatusTag}
    (h : TagsWF l) (hw : TagWF tg) : TagsWF (l ++ [tg]) := by
  intro s hs
  rcases List.mem_append.mp hs with hl | hr
  · exact h s hl
  · rw [List.mem_singleton.mp hr]
    exact hw

/-- Sorting status tags for `ORDER BY` does not change membership. -/
theorem mem_sortTagsDesc {s : StatusTag} {l : List StatusTag} :
    s ∈ sortTagsDesc l ↔ s ∈ l :=
  List.mem_insertionSort tagGE

/-- Sorting status tags for `ORDER BY` does not change the row count. -/
theorem length_sortTagsDesc (l : List StatusTag) :
    (sortTagsDesc l).length = l.length :=
  List.length_insertionSort tagGE l

/-- C1: the claim as stated is false on the code.  Deleting thread `t1`
succeeds (204), yet the status tag `tagOnB` — applied to the surviving thread
`t2` but with `reference_id = "t1"` — remains stored: `reference_id` carries
no foreign key, so the cascade never touches rows that merely reference the
deleted thread. -/
theorem spec_c1_counterexample :
    (handleDeleteThread exSt (some agA) "t1").1 = 204
    ∧ tagOnB ∈ (handleDeleteThread exSt (some agA) "t1").2.statusTags
    ∧ tagOnB.referenceId = some "t1" := by
  decide

/-- C1 (amended): a successful owner delete of thread `T` removes every reply
whose parent is `T` and every status tag attached to `T` (`thread_id = T`) or
to one of `T`'s replies (`reply_id` among them), and on any non-204 outcome
the store is unchanged; status tags that merely name `T` or its replies in
`reference_id` are not part of the cascade. -/
theorem spec_c1 (st : Store) (ag : Agent) (tid : String) (t : Thread)
    (hid : tid ≠ "") (hft : findThread st tid = some t) (hown : t.agentId = ag.id) :
    (handleDeleteThread st (some ag) tid).1 = 204
    ∧ (∀ rp ∈ (handleDeleteThread st (some ag) tid).2.replies, rp.threadId ≠ tid)
    ∧ (∀ s ∈ (handleDeleteThread st (some ag) tid).2.statusTags,
        s.threadId ≠ some tid
        ∧ ∀ rid, s.replyId = some rid → rid ∉ replyIdsOfThread st tid)
    ∧ (∀ agOpt tid', (handleDeleteThread st agOpt tid').1 ≠ 204 →
        (handleDeleteThread st agOpt tid').2 = st) := by
  have hrun : handleDeleteThread st (some ag) tid = (204, cascadeDeleteThread st tid) := by
    simp [handleDeleteThread, hid, hft, hown]
  refine ⟨by rw [hrun], ?_, ?_, ?_⟩
  · intro rp hrp
    rw [hrun] at hrp
    simp only [cascadeDeleteThread, List.mem_filter] at hrp
    simpa using hrp.2
  · intro s hs
    rw [hrun] at hs
    simp only [cascadeDeleteThread, List.mem_filter] at hs
    have hp := hs.2
    simp only [Bool.and_eq_true, Bool.not_eq_true'] at hp
    constructor
    · simpa using hp.1
    · intro rid hrid
      rcases hp with ⟨-, h2⟩
      rw [hrid] at h2
      simpa [Option.any] using h2
  · intro agOpt tid' hne
    cases agOpt with
    | none => rfl
    | some a =>
      by_cases h1 : tid' = ""
      · simp [handleDeleteThread, h1]
      · cases hf : findThread st tid' with
        | none => simp [handleDeleteThread, h1, hf]
        | some t' =>
          by_cases h2 : t'.agentId = a.id
          · exact absurd (by simp [handleDeleteThread, h1, hf, h2]) hne
          · simp [handleDeleteThread, h1, hf, h2]

/-- Shared fact: a qualifying status tag whose `reference_id` resolves to no
thread and no reply still yields an edge of the graph, with empty-string
target title and agent name. -/
theorem depEdge_of_dangling (st : Store) (s : StatusTag) (hs : s ∈ st.statusTags)
    (hdep : isDepTag s = true) (rid : String) (href : s.referenceId = some rid)
    (hft : findThread st rid = none) (hfr : findReply st rid = none) :
    depEdgeOf st s ∈ handleDependencies st
    ∧ (depEdgeOf st s).dependsOn.title = ""
    ∧ (depEdgeOf st s).dependsOn.agentName = "" := by
  refine ⟨?_, ?_, ?_⟩
  · exact List.mem_map_of_mem _ (mem_sortTagsDesc.mpr (List.mem_filter.mpr ⟨hs, hdep⟩))
  · simp [depEdgeOf, href, resolveRefNode, hft, hfr]
  · simp [depEdgeOf, href, resolveRefNode, hft, hfr]

/-- C2: the dependency graph has exactly one edge per status tag whose kind is
depends-on or blocked and whose `reference_id` is non-null (the edge count
equals that filtered count); the graph is the image of those tags listed
newest first; and a tag whose reference resolves to no thread or reply still
contributes its edge, with empty-string target title and agent name. -/
theorem spec_c2 (st : Store) :
    (handleDependencies st).length = (st.statusTags.filter isDepTag).length
    ∧ (∃ l : List StatusTag, l.Perm (st.statusTags.filter isDepTag)
        ∧ l.Sorted tagGE
        ∧ handleDependencies st = l.map (depEdgeOf st))
    ∧ (∀ s ∈ st.statusTags, isDepTag s = true →
        ∀ rid, s.referenceId = some rid →
          findThread st rid = none → findReply st rid = none →
          depEdgeOf st s ∈ handleDependencies st
          ∧ (depEdgeOf st s).dependsOn.title = ""
          ∧ (depEdgeOf st s).dependsOn.agentName = "") := by
  refine ⟨?_, ?_, ?_⟩
  · rw [handleDependencies, List.length_map, length_sortTagsDesc]
  · exact ⟨sortTagsDesc (st.statusTags.filter isDepTag),
      List.perm_insertionSort tagGE _, List.sorted_insertionSort tagGE _, rfl⟩
  · intro s hs hdep rid href hft hfr
    exact depEdge_of_dangling st s hs hdep rid href hft hfr

/-- C2 witness: the theorem applied to the concrete store, with its dangling-
reference clause instantiated at the tag whose reference `"zzz"` resolves to
nothing. -/
theorem spec_c2_witness :
    (handleDependencies exSt).length = (exSt.statusTags.filter isDepTag).length
    ∧ (depEdgeOf exSt tagOnR ∈ handleDependencies exSt
       ∧ (depEdgeOf exSt tagOnR).dependsOn.title = ""
       ∧ (depEdgeOf exSt tagOnR).dependsOn.agentName = "") :=
  ⟨(spec_c2 exSt).1,
   (spec_c2 exSt).2.2 tagOnR (by decide) (by decide) "zzz" (by decide) (by decide) (by decide)⟩

/-- C1 witness: the amended theorem applied to the concrete store. -/
theorem spec_c1_witness :
    (handleDeleteThread exSt (some agA) "t1").1 = 204
    ∧ (∀ rp ∈ (handleDeleteThread exSt (some agA) "t1").2.replies, rp.threadId ≠ "t1")
    ∧ (∀ s ∈ (handleDeleteThread exSt (some agA) "t1").2.statusTags,
        s.threadId ≠ some "t1"
        ∧ ∀ rid, s.replyId = some rid → rid ∉ replyIdsOfThread exSt "t1")
    ∧ (∀ agOpt tid', (handleDeleteThread exSt agOpt tid').1 ≠ 204 →
        (handleDeleteThread exSt agOpt tid').2 = exSt) :=
  spec_c1 exSt agA "t1" thA (by decide) (by decide) (by decide)

/-- C3: every mutating operation of the service preserves the status-tag
invariant — each stored tag has exactly one of thread-id / reply-id set and a
tag kind among the six enumerated values — and applying a status with a tag
outside the enumeration to an existing thread or reply fails with a 400
Validation error and leaves the store unchanged (no row persisted). -/
theorem spec_c3 :
    (∀ (op : Op) (st : Store), StatusInv st → StatusInv (applyOp op st))
    ∧ (∀ (st : Store) (ag : Agent) (tid tag : String) (refId : Option String)
        (newId : String) (now : Nat) (t : Thread),
        findThread st tid = some t → tid ≠ "" → tag ∉ validStatusTags →
        handleCreateThreadStatus st (some ag) tid tag refId newId now = (400, st))
    ∧ (∀ (st : Store) (ag : Agent) (rid tag : String) (refId : Option String)
        (newId : String) (now : Nat) (r : Reply),
        findReply st rid = some r → rid ≠ "" → tag ∉ validStatusTags →
        handleCreateReplyStatus st (some ag) rid tag refId newId now = (400, st)) := by
  refine ⟨?_, ?_, ?_⟩
  · intro op st h
    unfold StatusInv at h ⊢
    cases op <;>
      simp only [applyOp, handleCreateThread, handleUpdateThread, handleDeleteThread,
        handleCreateReply, handleUpdateReply, handleDeleteReply,
        handleCreateThreadStatus, handleCreateReplyStatus, handleDeleteStatus,
        handleAdminDeleteThread, handleAdminPinThread, handleAdminArchiveThread,
        handleAdminRevokeAgent, handleAdminCreateAgent, handleAdminCreateAnnouncement,
        handleAdminToggleAnnouncement, cascadeDeleteThread] <;>
      repeat' split
    all_goals try exact h
    all_goals try exact tagsWF_filter _ h
    · rename_i hv
      exact tagsWF_append_singleton h
        ⟨Or.inl ⟨Option.some_ne_none _, rfl⟩, not_not.mp hv⟩
    · rename_i hv
      exact tagsWF_append_singleton h
        ⟨Or.inr ⟨rfl, Option.some_ne_none _⟩, not_not.mp hv⟩
  · intro st ag tid tag refId newId now t hft hid hbad
    simp [handleCreateThreadStatus, hid, hft, hbad]
  · intro st ag rid tag refId newId now r hfr hid hbad
    simp [handleCreateReplyStatus, hid, hfr, hbad]

/-- C3 witness: invariant preservation and the validation failure at the
concrete store (tag value `"bogus"` is outside the vocabulary). -/
theorem spec_c3_witness :
    StatusInv (applyOp (.opDeleteThread (some agA) "t1") exSt)
    ∧ handleCreateThreadStatus exSt (some agA) "t1" "bogus" none "s9" 9 = (400, exSt)
    ∧ handleCreateReplyStatus exSt (some agA) "r1" "bogus" none "s9" 9 = (400, exSt) :=
  ⟨spec_c3.1 _ exSt (by decide),
   spec_c3.2.1 exSt agA "t1" "bogus" none "s9" 9 thA (by decide) (by decide) (by decide),
   spec_c3.2.2 exSt agA "r1" "bogus" none "s9" 9 rpA (by decide) (by decide) (by decide)⟩

/-- C4: for each of the five owner-guarded mutation handlers (thread update
and delete, reply update and delete, status-tag delete), an unauthenticated
request yields 401 with the store unchanged; an authenticated non-owner's
request yields 403 with the store unchanged and the target still retrievable;
and any request that does change the store came from the owner (for status
tags, the applying agent). -/
theorem spec_c4 :
    (∀ (st : Store) (tid : String) (input : UpdateThreadInput) (now : Nat),
        handleUpdateThread st none tid input now = (401, st))
    ∧ (∀ (st : Store) (ag : Agent) (tid : String) (input : UpdateThreadInput)
        (now : Nat) (t : Thread),
        tid ≠ "" → findThread st tid = some t → ag.id ≠ t.agentId →
        handleUpdateThread st (some ag) tid input now = (403, st)
        ∧ findThread (handleUpdateThread st (some ag) tid input now).2 tid = some t)
    ∧ (∀ (st : Store) (agentOpt : Option Agent) (tid : String)
        (input : UpdateThreadInput) (now : Nat),
        (handleUpdateThread st agentOpt tid input now).2 ≠ st →
        ∃ ag t, agentOpt = some ag ∧ findThread st tid = some t ∧ ag.id = t.agentId)
    ∧ (∀ (st : Store) (tid : String), handleDeleteThread st none tid = (401, st))
    ∧ (∀ (st : Store) (ag : Agent) (tid : String) (t : Thread),
        tid ≠ "" → findThread st tid = some t → ag.id ≠ t.agentId →
        handleDeleteThread st (some ag) tid = (403, st)
        ∧ findThread (handleDeleteThread st (some ag) tid).2 tid = some t)
    ∧ (∀ (st : Store) (agentOpt : Option Agent) (tid : String),
        (handleDeleteThread st agentOpt tid).2 ≠ st →
        ∃ ag t, agentOpt = some ag ∧ findThread st tid = some t ∧ ag.id = t.agentId)
    ∧ (∀ (st : Store) (rid body : String) (now : Nat),
        handleUpdateReply st none rid body now = (401, st))
    ∧ (∀ (st : Store) (ag : Agent) (rid body : String) (now : Nat) (r : Reply),
        rid ≠ "" → findReply st rid = some r → ag.id ≠ r.agentId →
        handleUpdateReply st (some ag) rid body now = (403, st)
        ∧ findReply (handleUpdateReply st (some ag) rid body now).2 rid = some r)
    ∧ (∀ (st : Store) (agentOpt : Option Agent) (rid body : String) (now : Nat),
        (handleUpdateReply st agentOpt rid body now).2 ≠ st →
        ∃ ag r, agentOpt = some ag ∧ findReply st rid = some r ∧ ag.id = r.agentId)
    ∧ (∀ (st : Store) (rid : String), handleDeleteReply st none rid = (401, st))
    ∧ (∀ (st : Store) (ag : Agent) (rid : String) (r : Reply),
        rid ≠ "" → findReply st rid = some r → ag.id ≠ r.agentId →
        handleDeleteReply st (some ag) rid = (403, st)
        ∧ findReply (handleDeleteReply st (some ag) rid).2 rid = some r)
    ∧ (∀ (st : Store) (agentOpt : Option Agent) (rid : String),
        (handleDeleteReply st agentOpt rid).2 ≠ st →
        ∃ ag r, agentOpt = some ag ∧ findReply st rid = some r ∧ ag.id = r.agentId)
    ∧ (∀ (st : Store) (sid : String), handleDeleteStatus st none sid = (401, st))
    ∧ (∀ (st : Store) (ag : Agent) (sid : String) (s : StatusTag),
        sid ≠ "" → findStatus st sid = some s → ag.id ≠ s.agentId →
        handleDeleteStatus st (some ag) sid = (403, st)
        ∧ findStatus (handleDeleteStatus st (some ag) sid).2 sid = some s)
    ∧ (∀ (st : Store) (agentOpt : Option Agent) (sid : String),
        (handleDeleteStatus st agentOpt sid).2 ≠ st →
        ∃ ag s, agentOpt = some ag ∧ findStatus st sid = some s ∧ ag.id = s.agentId) := by
  refine ⟨?_, ?_, ?_, ?_, ?_, ?_, ?_, ?_, ?_, ?_, ?_, ?_, ?_, ?_, ?_⟩
  · intro st tid input now; rfl
  · intro st ag tid input now t hid hft hne
    have h403 : handleUpdateThread st (some ag) tid input now = (403, st) := by
      simp [handleUpdateThread, hid, hft, Ne.symm hne]
    exact ⟨h403, by rw [h403]; exact hft⟩
  · intro st agentOpt tid input now hmut
    cases agentOpt with
    | none => exact absurd rfl hmut
    | some a =>
      by_cases h1 : tid = ""
      · exact absurd (by simp [handleUpdateThread, h1]) hmut
      · cases hf : findThread st tid with
        | none => exact absurd (by simp [handleUpdateThread, h1, hf]) hmut
        | some t =>
          by_cases h2 : t.agentId = a.id
          · exact ⟨a, t, rfl, rfl, h2.symm⟩
          · exact absurd (by simp [handleUpdateThread, h1, hf, h2]) hmut
  · intro st tid; rfl
  · intro st ag tid t hid hft hne
    have h403 : handleDeleteThread st (some ag) tid = (403, st) := by
      simp [handleDeleteThread, hid, hft, Ne.symm hne]
    exact ⟨h403, by rw [h403]; exact hft⟩
  · intro st agentOpt tid hmut
    cases agentOpt with
    | none => exact absurd rfl hmut
    | some a =>
      by_cases h1 : tid = ""
      · exact absurd (by simp [handleDeleteThread, h1]) hmut
      · cases hf : findThread st tid with
        | none => exact absurd (by simp [handleDeleteThread, h1, hf]) hmut
        | some t =>
          by_cases h2 : t.agentId = a.id
          · exact ⟨a, t, rfl, rfl, h2.symm⟩
          · exact absurd (by simp [handleDeleteThread, h1, hf, h2]) hmut
  · intro st rid body now; rfl
  · intro st ag rid body now r hid hfr hne
    have h403 : handleUpdateReply st (some ag) rid body now = (403, st) := by
      simp [handleUpdateReply, hid, hfr, Ne.symm hne]
    exact ⟨h403, by rw [h403]; exact hfr⟩
  · intro st agentOpt rid body now hmut
    cases agentOpt with
    | none => exact absurd rfl hmut
    | some a =>
      by_cases h1 : rid = ""
      · exact absurd (by simp [handleUpdateReply, h1]) hmut
      · cases hf : findReply st rid with
        | none => exact absurd (by simp [handleUpdateReply, h1, hf]) hmut
        | some r =>
          by_cases h2 : r.agentId = a.id
          · exact ⟨a, r, rfl, rfl, h2.symm⟩
          · exact absurd (by simp [handleUpdateReply, h1, hf, h2]) hmut
  · intro st rid; rfl
  · intro st ag rid r hid hfr hne
    have h403 : handleDeleteReply st (some ag) rid = (403, st) := by
      simp [handleDeleteReply, hid, hfr, Ne.symm hne]
    exact ⟨h403, by rw [h403]; exact hfr⟩
  · intro st agentOpt rid hmut
    cases agentOpt with
    | none => exact absurd rfl hmut
    | some a =>
      by_cases h1 : rid = ""
      · exact absurd (by simp [handleDeleteReply, h1]) hmut
      · cases hf : findReply st rid with
        | none => exact absurd (by simp [handleDeleteReply, h1, hf]) hmut
        | some r =>
          by_cases h2 : r.agentId = a.id
          · exact ⟨a, r, rfl, rfl, h2.symm⟩
          · exact absurd (by simp [handleDeleteReply, h1, hf, h2]) hmut
  · intro st sid; rfl
  · intro st ag sid s hid hfs hne
    have h403 : handleDeleteStatus st (some ag) sid = (403, st) := by
      simp [handleDeleteStatus, hid, hfs, Ne.symm hne]
    exact ⟨h403, by rw [h403]; exact hfs⟩
  · intro st agentOpt sid hmut
    cases agentOpt with
    | none => exact absurd rfl hmut
    | some a =>
      by_cases h1 : sid = ""
      · exact absurd (by simp [handleDeleteStatus, h1]) hmut
      · cases hf : findStatus st sid with
        | none => exact absurd (by simp [handleDeleteStatus, h1, hf]) hmut
        | some s =>
          by_cases h2 : s.agentId = a.id
          · exact ⟨a, s, rfl, rfl, h2.symm⟩
          · exact absurd (by simp [handleDeleteStatus, h1, hf, h2]) hmut

/-- C4 witness: agent `bob` (not the owner of thread `t1`) is refused with
403 and the thread survives; the unauthenticated variant yields 401. -/
theorem spec_c4_witness :
    (handleDeleteThread exSt none "t1" = (401, exSt))
    ∧ handleDeleteThread exSt (some agB) "t1" = (403, exSt)
    ∧ findThread (handleDeleteThread exSt (some agB) "t1").2 "t1" = some thA :=
  ⟨spec_c4.2.2.2.1 exSt "t1",
   ((spec_c4.2.2.2.2.1) exSt agB "t1" thA (by decide) (by decide) (by decide)).1,
   ((spec_c4.2.2.2.2.1) exSt agB "t1" thA (by decide) (by decide) (by decide)).2⟩

/-- C5: `handleQueryStatus` returns exactly the status tags of the requested
kind, ordered by creation time descending, each with its preview; the preview
is the target thread's title for tags on threads (the stored title is never
empty through the API, stated here as a hypothesis), and for tags on replies
it is the reply body unchanged when at most 100 characters and the first 100
characters followed by `"..."` when longer. -/
theorem spec_c5 (st : Store) (ag : Agent) (tagKind : String) (htag : tagKind ≠ "") :
    (handleQueryStatus st (some ag) tagKind).1 = 200
    ∧ (∀ s ∈ st.statusTags, s.tag = tagKind →
        (s, previewOf st s) ∈ (handleQueryStatus st (some ag) tagKind).2)
    ∧ (∀ p ∈ (handleQueryStatus st (some ag) tagKind).2,
        p.1 ∈ st.statusTags ∧ p.1.tag = tagKind ∧ p.2 = previewOf st p.1)
    ∧ (handleQueryStatus st (some ag) tagKind).2.Sorted
        (fun a b => b.1.createdAt ≤ a.1.createdAt)
    ∧ (∀ (s : StatusTag) (tid : String) (t : Thread),
        s.threadId = some tid → s.replyId = none →
        findThread st tid = some t → t.title ≠ "" →
        previewOf st s = t.title)
    ∧ (∀ (s : StatusTag) (rid : String) (r : Reply),
        s.replyId = some rid → findReply st rid = some r →
        (r.body.length ≤ 100 → previewOf st s = r.body)
        ∧ (100 < r.body.length → previewOf st s = r.body.take 100 ++ "...")) := by
  have hrun : handleQueryStatus st (some ag) tagKind
      = (200, (sortTagsDesc (st.statusTags.filter (fun s => s.tag == tagKind))).map
          (fun s => (s, previewOf st s))) := by
    simp [handleQueryStatus, htag]
  refine ⟨by rw [hrun], ?_, ?_, ?_, ?_, ?_⟩
  · intro s hs heq
    rw [hrun]
    exact List.mem_map_of_mem _
      (mem_sortTagsDesc.mpr (List.mem_filter.mpr ⟨hs, by simp [heq]⟩))
  · intro p hp
    rw [hrun] at hp
    rcases List.mem_map.mp hp with ⟨s, hsmem, hpe⟩
    cases hpe
    have hf := List.mem_filter.mp (mem_sortTagsDesc.mp hsmem)
    exact ⟨hf.1, by simpa using hf.2, rfl⟩
  · rw [hrun]
    exact List.Pairwise.map _ (fun a b h => h)
      (List.sorted_insertionSort tagGE (st.statusTags.filter (fun s => s.tag == tagKind)))
  · intro s tid t hth hrp hft htit
    simp [previewOf, hth, hrp, hft, htit]
  · intro s rid r hrp hfr
    have hpre : previewOf st s = previewBody r.body := by
      simp [previewOf, hrp, hfr]
    refine ⟨fun hlen => ?_, fun hlen => ?_⟩
    · rw [hpre]; unfold previewBody; rw [if_neg (by omega)]
    · rw [hpre]; unfold previewBody; rw [if_pos (by omega)]

/-- C5 witness: querying `"blocked"` on the concrete store returns the reply
tag with its un-truncated body as preview, and a thread tag's preview is the
thread title. -/
theorem spec_c5_witness :
    (handleQueryStatus exSt (some agA) "blocked").1 = 200
    ∧ (tagOnR, previewOf exSt tagOnR) ∈ (handleQueryStatus exSt (some agA) "blocked").2
    ∧ previewOf exSt tagOnB = "T2"
    ∧ previewOf exSt tagOnR = "reply body" := by
  have h := spec_c5 exSt agA "blocked" (by decide)
  refine ⟨h.1, h.2.1 tagOnR (by decide) (by decide), ?_, ?_⟩
  · exact h.2.2.2.2.1 tagOnB "t2" thB (by decide) (by decide) (by decide) (by decide)
  · exact (h.2.2.2.2.2 tagOnR "r1" rpA (by decide) (by decide)).1 (by decide)

/-- C6: applying a `blocked` or `depends-on` status — to an existing thread
or to an existing reply — with a `reference_id` that matches no thread and no
reply succeeds (201) and persists the tag — reference existence is never
validated — and the dependency graph of the resulting store contains an edge
for it whose target title and agent name are empty strings. -/
theorem spec_c6 (st : Store) (ag : Agent) (refId newId : String) (now : Nat)
    (kind : String)
    (hkind : kind = "blocked" ∨ kind = "depends-on")
    (hdt : findThread st refId = none) (hdr : findReply st refId = none) :
    (∀ (tid : String) (t : Thread), tid ≠ "" → findThread st tid = some t →
      (handleCreateThreadStatus st (some ag) tid kind (some refId) newId now).1 = 201
      ∧ (∃ s ∈ (handleCreateThreadStatus st (some ag) tid kind (some refId) newId now).2.statusTags,
          s.id = newId ∧ s.tag = kind ∧ s.referenceId = some refId)
      ∧ (∃ e ∈ handleDependencies
            (handleCreateThreadStatus st (some ag) tid kind (some refId) newId now).2,
          e.dependsOn.id = refId ∧ e.dependsOn.title = "" ∧ e.dependsOn.agentName = ""))
    ∧ (∀ (rid : String) (r : Reply), rid ≠ "" → findReply st rid = some r →
      (handleCreateReplyStatus st (some ag) rid kind (some refId) newId now).1 = 201
      ∧ (∃ s ∈ (handleCreateReplyStatus st (some ag) rid kind (some refId) newId now).2.statusTags,
          s.id = newId ∧ s.tag = kind ∧ s.referenceId = some refId)
      ∧ (∃ e ∈ handleDependencies
            (handleCreateReplyStatus st (some ag) rid kind (some refId) newId now).2,
          e.dependsOn.id = refId ∧ e.dependsOn.title = "" ∧ e.dependsOn.agentName = "")) := by
  have hvalid : kind ∈ validStatusTags := by
    rcases hkind with h | h <;> simp [h, validStatusTags]
  constructor
  · intro tid t hid hft
    have hrun : handleCreateThreadStatus st (some ag) tid kind (some refId) newId now
        = (201, { st with statusTags := st.statusTags ++
            [{ id := newId, threadId := some tid, replyId := none, agentId := ag.id,
               tag := kind, referenceId := some refId, createdAt := now }] }) := by
      simp [handleCreateThreadStatus, hid, hft, hvalid]
    refine ⟨by rw [hrun], ?_, ?_⟩
    · rw [hrun]
      exact ⟨_, List.mem_append_right _ (List.mem_singleton_self _), rfl, rfl, rfl⟩
    · rw [hrun]
      have hdt2 : findThread { st with statusTags := st.statusTags ++
          [{ id := newId, threadId := some tid, replyId := none, agentId := ag.id,
             tag := kind, referenceId := some refId, createdAt := now }] } refId = none := hdt
      have hdr2 : findReply { st with statusTags := st.statusTags ++
          [{ id := newId, threadId := some tid, replyId := none, agentId := ag.id,
             tag := kind, referenceId := some refId, createdAt := now }] } refId = none := hdr
      have hdep : isDepTag
          { id := newId, threadId := some tid, replyId := none, agentId := ag.id,
            tag := kind, referenceId := some refId, createdAt := now } = true := by
        rcases hkind with h | h <;> simp [isDepTag, h]
      have h := depEdge_of_dangling _ _
        (List.mem_append_right _ (List.mem_singleton_self _)) hdep refId rfl hdt2 hdr2
      refine ⟨_, h.1, ?_, h.2.1, h.2.2⟩
      simp [depEdgeOf, resolveRefNode, hdt2, hdr2]
  · intro rid r hid hfr
    have hrun : handleCreateReplyStatus st (some ag) rid kind (some refId) newId now
        = (201, { st with statusTags := st.statusTags ++
            [{ id := newId, threadId := none, replyId := some rid, agentId := ag.id,
               tag := kind, referenceId := some refId, createdAt := now }] }) := by
      simp [handleCreateReplyStatus, hid, hfr, hvalid]
    refine ⟨by rw [hrun], ?_, ?_⟩
    · rw [hrun]
      exact ⟨_, List.mem_append_right _ (List.mem_singleton_self _), rfl, rfl, rfl⟩
    · rw [hrun]
      have hdt2 : findThread { st with statusTags := st.statusTags ++
          [{ id := newId, threadId := none, replyId := some rid, agentId := ag.id,
             tag := kind, referenceId := some refId, createdAt := now }] } refId = none := hdt
      have hdr2 : findReply { st with statusTags := st.statusTags ++
          [{ id := newId, threadId := none, replyId := some rid, agentId := ag.id,
             tag := kind, referenceId := some refId, createdAt := now }] } refId = none := hdr
      have hdep : isDepTag
          { id := newId, threadId := none, replyId := some rid, agentId := ag.id,
            tag := kind, referenceId := some refId, createdAt := now } = true := by
        rcases hkind with h | h <;> simp [isDepTag, h]
      have h := depEdge_of_dangling _ _
        (List.mem_append_right _ (List.mem_singleton_self _)) hdep refId rfl hdt2 hdr2
      refine ⟨_, h.1, ?_, h.2.1, h.2.2⟩
      simp [depEdgeOf, resolveRefNode, hdt2, hdr2]

/-- C6 witness: applying `blocked` with dangling reference `"zzz"` to thread
`t1` and to reply `r1` of the concrete store. -/
theorem spec_c6_witness :
    ((handleCreateThreadStatus exSt (some agA) "t1" "blocked" (some "zzz") "s9" 9).1 = 201
    ∧ (∃ s ∈ (handleCreateThreadStatus exSt (some agA) "t1" "blocked" (some "zzz") "s9" 9).2.statusTags,
        s.id = "s9" ∧ s.tag = "blocked" ∧ s.referenceId = some "zzz")
    ∧ (∃ e ∈ handleDependencies
          (handleCreateThreadStatus exSt (some agA) "t1" "blocked" (some "zzz") "s9" 9).2,
        e.dependsOn.id = "zzz" ∧ e.dependsOn.title = "" ∧ e.dependsOn.agentName = ""))
    ∧ ((handleCreateReplyStatus exSt (some agA) "r1" "blocked" (some "zzz") "s9" 9).1 = 201
    ∧ (∃ s ∈ (handleCreateReplyStatus exSt (some agA) "r1" "blocked" (some "zzz") "s9" 9).2.statusTags,
        s.id = "s9" ∧ s.tag = "blocked" ∧ s.referenceId = some "zzz")
    ∧ (∃ e ∈ handleDependencies
          (handleCreateReplyStatus exSt (some agA) "r1" "blocked" (some "zzz") "s9" 9).2,
        e.dependsOn.id = "zzz" ∧ e.dependsOn.title = "" ∧ e.dependsOn.agentName = "")) :=
  ⟨(spec_c6 exSt agA "zzz" "s9" 9 "blocked" (Or.inl rfl) (by decide) (by decide)).1
      "t1" thA (by decide) (by decide),
   (spec_c6 exSt agA "zzz" "s9" 9 "blocked" (Or.inl rfl) (by decide) (by decide)).2
      "r1" rpA (by decide) (by decide)⟩

/-- A list is a `isPrefixOf`-prefix of itself followed by anything. -/
theorem isPrefixOf_append_self {α : Type} [BEq α] [LawfulBEq α] (l r : List α) :
    l.isPrefixOf (l ++ r) = true := by
  induction l with
  | nil => simp
  | cons a as ih => simp [List.isPrefixOf_cons₂, ih]

/-- C7: after an agent's credential hash is cleared by revocation, a bearer
call presenting the agent's previously valid token is unauthenticated — the
cleared (empty) hash matches no key, and no other agent's hash matches the
token — while the agent's row (id, name, owner) and every thread and reply
remain stored.  `matchFn` is the external bcrypt comparison; that an empty
stored hash verifies no key is a bcrypt fact taken as the `hEmpty`
hypothesis. -/
theorem spec_c7 (matchFn : String → String → Bool) (st : Store) (A : Agent)
    (token : String)
    (hEmpty : ∀ k, matchFn "" k = false)
    (hA : A ∈ st.agents)
    (hOnly : ∀ B ∈ st.agents, B.id ≠ A.id → matchFn B.apiKeyHash token = false)
    (hAid : A.id ≠ "") :
    APIKeyAuth matchFn (handleAdminRevokeAgent st A.id) ("Bearer " ++ token)
      = .error (401, "invalid api key")
    ∧ (handleAdminRevokeAgent st A.id).threads = st.threads
    ∧ (handleAdminRevokeAgent st A.id).replies = st.replies
    ∧ ∃ A' ∈ (handleAdminRevokeAgent st A.id).agents,
        A'.id = A.id ∧ A'.name = A.name ∧ A'.owner = A.owner := by
  have hrev : handleAdminRevokeAgent st A.id
      = { st with agents := st.agents.map (fun a =>
          if a.id = A.id then { a with apiKeyHash := "" } else a) } := by
    simp [handleAdminRevokeAgent, hAid]
  have h7 : ("Bearer ".data.length = 7) := rfl
  have hkey : String.mk (("Bearer " ++ token).data.drop 7) = token := by
    rw [String.data_append, List.drop_left' h7]
  refine ⟨?_, by rw [hrev], by rw [hrev], ?_⟩
  · rw [hrev]
    unfold APIKeyAuth
    rw [if_pos (by rw [String.data_append]; exact isPrefixOf_append_self _ _)]
    have hnone : (st.agents.map (fun a =>
        if a.id = A.id then { a with apiKeyHash := "" } else a)).find?
        (fun a => matchFn a.apiKeyHash
          (String.mk (("Bearer " ++ token).data.drop 7))) = none := by
      rw [List.find?_eq_none]
      intro b hb
      rcases List.mem_map.mp hb with ⟨a, ha, hfa⟩
      rw [hkey]
      by_cases hcase : a.id = A.id
      · rw [← hfa, if_pos hcase]
        simp [hEmpty]
      · rw [← hfa, if_neg hcase]
        simp [hOnly a ha hcase]
    rw [hnone]
  · rw [hrev]
    exact ⟨if A.id = A.id then { A with apiKeyHash := "" } else A,
      List.mem_map_of_mem _ hA, by simp, by simp, by simp⟩

/-- C7 witness: revoking `agA` in the concrete store; the hypotheses are
discharged with a concrete bcrypt model in which only `agA`'s stored hash
`"h1"` verifies the token `"key1"` and the empty hash verifies nothing. -/
theorem spec_c7_witness :
    APIKeyAuth (fun h k => h == "h1" && k == "key1")
        (handleAdminRevokeAgent exSt "a1") ("Bearer " ++ "key1")
      = .error (401, "invalid api key")
    ∧ (handleAdminRevokeAgent exSt "a1").threads = exSt.threads
    ∧ (handleAdminRevokeAgent exSt "a1").replies = exSt.replies
    ∧ ∃ A' ∈ (handleAdminRevokeAgent exSt "a1").agents,
        A'.id = "a1" ∧ A'.name = "alice" ∧ A'.owner = "o1" :=
  spec_c7 (fun h k => h == "h1" && k == "key1") exSt agA "key1"
    (fun k => by simp) (by decide) (by decide) (by decide)

/-- A `map` whose function preserves row ids commutes with a primary-key
lookup on `threads` (the effect of `UPDATE threads ... WHERE id = ?`). -/
theorem findThread_map_update (st : Store) (tid : String) (t : Thread)
    (f : Thread → Thread) (hpres : ∀ u, (f u).id = u.id)
    (hft : findThread st tid = some t) :
    findThread { st with threads := st.threads.map f } tid = some (f t) := by
  unfold findThread at *
  rw [List.find?_map]
  have hcomp : ((fun u : Thread => u.id == tid) ∘ f) = (fun u : Thread => u.id == tid) := by
    funext u
    simp [Function.comp, hpres]
  rw [hcomp, hft]
  rfl

/-- C8: a successful sparse update by the owner returns 200 and stores a
thread in which exactly the supplied fields take their new values, the
updated-timestamp is refreshed, and the id, owning agent, pinned, archived,
creation time and every unsupplied field are unchanged; a request supplying
no fields fails with 400 and changes nothing. -/
theorem spec_c8 (st : Store) (ag : Agent) (tid : String) (input : UpdateThreadInput)
    (now : Nat) (t : Thread)
    (hid : tid ≠ "") (hft : findThread st tid = some t) (hown : t.agentId = ag.id)
    (htitle : input.title ≠ some "") (hbody : input.body ≠ some "")
    (hsome : ¬(input.title = none ∧ input.body = none ∧ input.tags = none)) :
    (handleUpdateThread st (some ag) tid input now).1 = 200
    ∧ (∃ t', findThread (handleUpdateThread st (some ag) tid input now).2 tid = some t'
        ∧ t'.title = input.title.getD t.title
        ∧ t'.body = input.body.getD t.body
        ∧ t'.tags = input.tags.getD t.tags
        ∧ t'.updatedAt = now
        ∧ t'.id = t.id ∧ t'.agentId = t.agentId ∧ t'.pinned = t.pinned
        ∧ t'.archived = t.archived ∧ t'.createdAt = t.createdAt)
    ∧ (∀ input' : UpdateThreadInput,
        input'.title = none → input'.body = none → input'.tags = none →
        handleUpdateThread st (some ag) tid input' now = (400, st)) := by
  have htid : t.id = tid := by
    have := List.find?_some hft
    simpa using this
  have hrun : handleUpdateThread st (some ag) tid input now
      = (200, { st with threads := st.threads.map (fun u =>
          if u.id = tid then
            { u with
              title := input.title.getD u.title,
              body := input.body.getD u.body,
              tags := input.tags.getD u.tags,
              updatedAt := now }
          else u) }) := by
    simp [handleUpdateThread, hid, hft, hown, htitle, hbody, hsome]
  refine ⟨by rw [hrun], ?_, ?_⟩
  · rw [hrun]
    have hfind := findThread_map_update st tid t
      (fun u =>
        if u.id = tid then
          { u with
            title := input.title.getD u.title,
            body := input.body.getD u.body,
            tags := input.tags.getD u.tags,
            updatedAt := now }
        else u)
      (by intro u; by_cases h : u.id = tid <;> simp [h]) hft
    have hbeta : (fun u : Thread =>
        if u.id = tid then
          { u with
            title := input.title.getD u.title,
            body := input.body.getD u.body,
            tags := input.tags.getD u.tags,
            updatedAt := now }
        else u) t
        = { t with
            title := input.title.getD t.title,
            body := input.body.getD t.body,
            tags := input.tags.getD t.tags,
            updatedAt := now } := by
      simp [htid]
    rw [hbeta] at hfind
    exact ⟨_, hfind, rfl, rfl, rfl, rfl, rfl, rfl, rfl, rfl, rfl⟩
  · intro input' h1 h2 h3
    simp [handleUpdateThread, hid, hft, hown, h1, h2, h3]

/-- C8 witness: `alice` updates only the title of her thread `t1`; the stored
thread keeps its body, tags and creation data and refreshes the timestamp. -/
theorem spec_c8_witness :
    (handleUpdateThread exSt (some agA) "t1"
        { title := some "NewT", body := none, tags := none } 9).1 = 200
    ∧ (∃ t', findThread (handleUpdateThread exSt (some agA) "t1"
          { title := some "NewT", body := none, tags := none } 9).2 "t1" = some t'
        ∧ t'.title = (some "NewT").getD thA.title
        ∧ t'.body = (Option.getD none thA.body)
        ∧ t'.tags = (Option.getD none thA.tags)
        ∧ t'.updatedAt = 9
        ∧ t'.id = thA.id ∧ t'.agentId = thA.agentId ∧ t'.pinned = thA.pinned
        ∧ t'.archived = thA.archived ∧ t'.createdAt = thA.createdAt)
    ∧ (∀ input' : UpdateThreadInput,
        input'.title = none → input'.body = none → input'.tags = none →
        handleUpdateThread exSt (some agA) "t1" input' 9 = (400, exSt)) :=
  spec_c8 exSt agA "t1" { title := some "NewT", body := none, tags := none } 9 thA
    (by decide) (by decide) (by decide) (by decide) (by decide) (by decide)

/-- C9: an authenticated thread-list request succeeds with the page size
defaulting to 20 when `per_page` is absent (parsed as 0) or below 1, capped
at 100 when above 100 and taken as given otherwise; the response headers
carry the total count of threads matching the filters, the normalised page
number and the effective per-page value; and at most that many threads are
returned. -/
theorem spec_c9 (st : Store) (ag : Agent) (q : ListThreadsQuery) :
    (handleListThreads st (some ag) q).status = 200
    ∧ (q.perPage < 1 → (handleListThreads st (some ag) q).perPage = 20)
    ∧ (q.perPage > 100 → (handleListThreads st (some ag) q).perPage = 100)
    ∧ (1 ≤ q.perPage → q.perPage ≤ 100 →
        (handleListThreads st (some ag) q).perPage = q.perPage)
    ∧ (handleListThreads st (some ag) q).totalCount
        = (st.threads.filter (matchesListFilters st q)).length
    ∧ (handleListThreads st (some ag) q).page = (if q.page < 1 then 1 else q.page)
    ∧ (handleListThreads st (some ag) q).threads.length
        ≤ (handleListThreads st (some ag) q).perPage.toNat := by
  refine ⟨rfl, ?_, ?_, ?_, rfl, rfl, ?_⟩
  · intro h
    simp [handleListThreads, h]
  · intro h
    simp [handleListThreads, show ¬ q.perPage < 1 by omega, h]
  · intro h1 h2
    simp [handleListThreads, show ¬ q.perPage < 1 by omega, show ¬ q.perPage > 100 by omega]
  · simp only [handleListThreads]
    exact List.length_take_le _ _

/-- C9 witness: a request with absent pagination parameters (parsed as 0) on
the concrete store defaults to 20 per page and reports both stored threads. -/
theorem spec_c9_witness :
    (handleListThreads exSt (some agA)
        { page := 0, perPage := 0, tagFilter := "", agentFilter := "",
          statusFilter := "", pinnedFilter := "", archivedFilter := "" }).status = 200
    ∧ (handleListThreads exSt (some agA)
        { page := 0, perPage := 0, tagFilter := "", agentFilter := "",
          statusFilter := "", pinnedFilter := "", archivedFilter := "" }).perPage = 20
    ∧ (handleListThreads exSt (some agA)
        { page := 0, perPage := 0, tagFilter := "", agentFilter := "",
          statusFilter := "", pinnedFilter := "", archivedFilter := "" }).totalCount
      = (exSt.threads.filter (matchesListFilters exSt
          { page := 0, perPage := 0, tagFilter := "", agentFilter := "",
            statusFilter := "", pinnedFilter := "", archivedFilter := "" })).length :=
  ⟨(spec_c9 exSt agA _).1,
   (spec_c9 exSt agA _).2.1 (by decide),
   (spec_c9 exSt agA _).2.2.2.2.1⟩

/-- `breakColon` on a colon-free prefix followed by a colon splits exactly
there. -/
theorem breakColon_append (u rest : List Char) (h : ':' ∉ u) :
    breakColon (u ++ ':' :: rest) = some (u, rest) := by
  induction u with
  | nil => simp [breakColon]
  | cons c cs ih =>
    have hc : c ≠ ':' := fun he => h (he ▸ List.mem_cons_self _ _)
    have hcs : ':' ∉ cs := fun hm => h (List.mem_cons_of_mem _ hm)
    simp [breakColon, hc, ih hcs]

/-- `breakColon` inverts: a successful split reassembles the input, and the
prefix is colon-free. -/
theorem breakColon_eq_some {l a b : List Char} (h : breakColon l = some (a, b)) :
    l = a ++ ':' :: b ∧ ':' ∉ a := by
  induction l generalizing a b with
  | nil => simp [breakColon] at h
  | cons c cs ih =>
    by_cases hc : c = ':'
    · subst hc
      unfold breakColon at h
      rw [if_pos rfl] at h
      have h' := Option.some.inj h
      injection h' with h1 h2
      subst h1
      subst h2
      exact ⟨rfl, by simp⟩
    · unfold breakColon at h
      rw [if_neg hc] at h
      cases hcs : breakColon cs with
      | none => rw [hcs] at h; simp at h
      | some p =>
        obtain ⟨a', b'⟩ := p
        rw [hcs] at h
        have h' := Option.some.inj h
        injection h' with h1 h2
        subst h1
        subst h2
        obtain ⟨hl, hnotin⟩ := ih hcs
        constructor
        · rw [hl]; rfl
        · intro hmem
          rcases List.mem_cons.mp hmem with he | hm
          · exact hc he.symm
          · exact hnotin hm

/-- The character data of a created session token: the user id, a colon, and
the signature bytes. -/
theorem create_token_data (mac : String → String → String) (uid secret : String) :
    (CreateUserSessionToken mac uid secret).data
      = uid.data ++ ':' :: (mac secret ("user-session:" ++ uid)).data := by
  show ((uid ++ ":") ++ mac secret ("user-session:" ++ uid)).data = _
  rw [String.data_append, String.data_append, List.append_assoc]
  rfl

/-- C10: user session tokens round-trip — for a user id without a colon,
validating a freshly created token returns that id with `true`; conversely a
token that validates as `(u, true)` is exactly the token created for `u` with
the same secret, so a signature not produced with that secret over the
embedded id is rejected.  The HMAC primitive is universally quantified. -/
theorem spec_c10 :
    (∀ (mac : String → String → String) (uid secret : String), ':' ∉ uid.data →
        ValidateUserSessionToken mac (CreateUserSessionToken mac uid secret) secret
          = (uid, true))
    ∧ (∀ (mac : String → String → String) (token secret u : String),
        ValidateUserSessionToken mac token secret = (u, true) →
        token = CreateUserSessionToken mac u secret) := by
  constructor
  · intro mac uid secret hno
    have hmk : String.mk uid.data = uid := rfl
    simp only [ValidateUserSessionToken, create_token_data, hmk,
      breakColon_append _ _ hno]
    simp
  · intro mac token secret u h
    unfold ValidateUserSessionToken at h
    cases hbt : breakColon token.data with
    | none => rw [hbt] at h; simp at h
    | some p =>
      obtain ⟨a, b⟩ := p
      have hnoa : ':' ∉ a := (breakColon_eq_some hbt).2
      have hdata2 : (CreateUserSessionToken mac (String.mk a) secret).data
          = a ++ ':' :: (mac secret ("user-session:" ++ String.mk a)).data :=
        create_token_data mac (String.mk a) secret
      simp only [hbt, hdata2, breakColon_append _ _ hnoa] at h
      by_cases hb : b = (mac secret ("user-session:" ++ String.mk a)).data
      · rw [if_pos hb] at h
        have hu : String.mk a = u := (Prod.mk.injEq _ _ _ _ ▸ h).1
        apply String.ext
        rw [(breakColon_eq_some hbt).1, create_token_data, ← hu, hb]
      · rw [if_neg hb] at h
        simp at h

/-- C10 witness: round trip and inversion at a concrete MAC, user id and
secret. -/
theorem spec_c10_witness :
    ValidateUserSessionToken (fun s m => s ++ m) (CreateUserSessionToken
        (fun s m => s ++ m) "alice" "k") "k" = ("alice", true)
    ∧ ("alice:kuser-session:alice"
        = CreateUserSessionToken (fun s m => s ++ m) "alice" "k") :=
  ⟨spec_c10.1 (fun s m => s ++ m) "alice" "k" (by decide),
   spec_c10.2 (fun s m => s ++ m) "alice:kuser-session:alice" "k" "alice" (by decide)⟩

end Forum
